import Mathlib

/-!
# Verification of the Food_menu recommendation/validation engine

Shallow embedding of `food_validator.py` (catalog, disease rules, evaluator,
aggregator) and of the meal-plan endpoint of `food_menu_api.py`, together with
proofs settling the specification claims.

Numeric conventions of the embedding:
* Python mixes ints and floats; the only fractional source values are rice's
  `fiber_g = 0.3` and `fat_g = 0.3`.  We therefore model every nutrient as an
  `Int`, with `fiber_g` and `fat_g` stored in tenths of a gram (source value
  multiplied by 10, thresholds likewise), which preserves every comparison
  exactly.  Prices are stored in cents (source value times 100); they are only
  carried through, never compared.
* Scores are `Int` (they can go negative before the final clamp in general,
  though not with this rule table).
* Python dicts iterate in insertion order; they are modelled as association
  lists in source order.
* A verdict's `reason` and the entries of `violations` are strings formatted
  by f-strings in the source; we model them as inductive values carrying the
  same data (offending value and threshold), one constructor per distinct
  message shape, rather than re-implementing Python float formatting.
-/

/-- The `purine_level` field of a food record: one of the four string values
`"low" | "medium" | "high" | "very_high"` used in `FOOD_DATABASE`. -/
inductive PurineLevel
  | low
  | medium
  | high
  | very_high
deriving DecidableEq, Repr

/-- A food record of `FOOD_DATABASE` (food_validator.py lines 7-191).
`fiber_g` and `fat_g` are in tenths of a gram, `price` in cents (see the file
comment); all other fields are exactly the source values.  `omega3` appears
only on the salmon record and is never read by the validator; it defaults to
`false`. -/
structure Food where
  name : String
  price : Int
  calories : Int
  sodium_mg : Int
  sugar_g : Int
  protein_g : Int
  fiber_g : Int
  fat_g : Int
  carbs_g : Int
  gluten : Bool
  lactose : Bool
  purine_level : PurineLevel
  omega3 : Bool := false
deriving DecidableEq, Repr

/-- `FOOD_DATABASE` (food_validator.py lines 7-191): the 13 catalog entries in
source (dict insertion) order. -/
def FOOD_DATABASE : List (String × Food) :=
  [ ("biryani",
     { name := "Biryani", price := 899, calories := 450, sodium_mg := 850,
       sugar_g := 2, protein_g := 18, fiber_g := 30, fat_g := 120,
       carbs_g := 65, gluten := true, lactose := false,
       purine_level := .high }),
    ("tandoori",
     { name := "Tandoori Chicken", price := 999, calories := 280,
       sodium_mg := 650, sugar_g := 1, protein_g := 35, fiber_g := 0,
       fat_g := 80, carbs_g := 5, gluten := false, lactose := false,
       purine_level := .medium }),
    ("salmon",
     { name := "Grilled Salmon", price := 1499, calories := 350,
       sodium_mg := 500, sugar_g := 0, protein_g := 40, fiber_g := 0,
       fat_g := 200, carbs_g := 0, gluten := false, lactose := false,
       purine_level := .high, omega3 := true }),
    ("steak",
     { name := "Grilled Steak", price := 1699, calories := 420,
       sodium_mg := 700, sugar_g := 0, protein_g := 45, fiber_g := 0,
       fat_g := 250, carbs_g := 0, gluten := false, lactose := false,
       purine_level := .very_high }),
    ("pizza",
     { name := "Vegetable Pizza", price := 1099, calories := 380,
       sodium_mg := 920, sugar_g := 4, protein_g := 14, fiber_g := 50,
       fat_g := 140, carbs_g := 52, gluten := true, lactose := true,
       purine_level := .low }),
    ("hamburger",
     { name := "Hamburger", price := 799, calories := 520, sodium_mg := 1100,
       sugar_g := 8, protein_g := 28, fiber_g := 20, fat_g := 280,
       carbs_g := 48, gluten := true, lactose := true,
       purine_level := .high }),
    ("chocolate_cake",
     { name := "Chocolate Cake", price := 599, calories := 380,
       sodium_mg := 200, sugar_g := 45, protein_g := 4, fiber_g := 20,
       fat_g := 180, carbs_g := 52, gluten := true, lactose := true,
       purine_level := .low }),
    ("grilled_meat",
     { name := "Grilled Meat", price := 1299, calories := 340,
       sodium_mg := 600, sugar_g := 0, protein_g := 40, fiber_g := 0,
       fat_g := 180, carbs_g := 0, gluten := false, lactose := false,
       purine_level := .high }),
    ("rice",
     { name := "Rice", price := 399, calories := 206, sodium_mg := 2,
       sugar_g := 0, protein_g := 4, fiber_g := 3, fat_g := 3,
       carbs_g := 45, gluten := false, lactose := false,
       purine_level := .low }),
    ("lentils",
     { name := "Lentil Curry", price := 699, calories := 230,
       sodium_mg := 500, sugar_g := 2, protein_g := 18, fiber_g := 80,
       fat_g := 30, carbs_g := 40, gluten := false, lactose := false,
       purine_level := .medium }),
    ("fruit",
     { name := "Mixed Fruit Salad", price := 549, calories := 80,
       sodium_mg := 20, sugar_g := 18, protein_g := 1, fiber_g := 30,
       fat_g := 0, carbs_g := 21, gluten := false, lactose := false,
       purine_level := .low }),
    ("green_tea",
     { name := "Green Tea", price := 299, calories := 2, sodium_mg := 5,
       sugar_g := 0, protein_g := 0, fiber_g := 0, fat_g := 0, carbs_g := 0,
       gluten := false, lactose := false, purine_level := .low }),
    ("bottle",
     { name := "Water Bottle", price := 199, calories := 0, sodium_mg := 0,
       sugar_g := 0, protein_g := 0, fiber_g := 0, fat_g := 0, carbs_g := 0,
       gluten := false, lactose := false, purine_level := .low }) ]

/-!
## The disease rule table (`DISEASE_RULES`, food_validator.py lines 194-238)

Only the threshold fields that `validate_food` actually reads are modelled;
the `considerations` string lists and the flag entries the evaluator never
reads (`gluten`, `lactose`, `min_potassium`, `max_potassium_foods`,
`max_phosphorus`, `min_water`, `avoid_high_fodmap`, the allowed
`purine_level` list) are dropped — the gluten/lactose/purine tests in the
evaluator inspect the food record directly, not the rule entry.
`min_fiber_g` and `max_fat_g` are stored in tenths of a gram as explained in
the file comment. -/

/-- The threshold fields of `DISEASE_RULES["diabetes"]`. -/
structure DiabetesRules where
  max_sugar_g : Int
  max_carbs_g : Int
  min_fiber_g : Int
  max_calories : Int

/-- `DISEASE_RULES["diabetes"]`: sugar ≤ 15 g, carbs ≤ 50 g, fiber ≥ 2 g
(stored as 20 tenths), calories ≤ 400. -/
def diabetes_rules : DiabetesRules :=
  { max_sugar_g := 15, max_carbs_g := 50, min_fiber_g := 20,
    max_calories := 400 }

/-- The threshold fields of `DISEASE_RULES["celiac"]`. -/
structure CeliacRules where
  max_sodium_mg : Int
  min_fiber_g : Int

/-- `DISEASE_RULES["celiac"]`: sodium ≤ 800 mg, fiber ≥ 3 g (30 tenths). -/
def celiac_rules : CeliacRules :=
  { max_sodium_mg := 800, min_fiber_g := 30 }

/-- The threshold fields of `DISEASE_RULES["hypertension"]`. -/
structure HypertensionRules where
  max_sodium_mg : Int
  max_calories : Int
  max_fat_g : Int

/-- `DISEASE_RULES["hypertension"]`: sodium ≤ 600 mg, calories ≤ 350,
fat ≤ 15 g (150 tenths). -/
def hypertension_rules : HypertensionRules :=
  { max_sodium_mg := 600, max_calories := 350, max_fat_g := 150 }

/-- The threshold fields of `DISEASE_RULES["kidney"]`. -/
structure KidneyRules where
  max_sodium_mg : Int
  max_protein_g : Int

/-- `DISEASE_RULES["kidney"]`: sodium ≤ 400 mg, protein ≤ 25 g. -/
def kidney_rules : KidneyRules :=
  { max_sodium_mg := 400, max_protein_g := 25 }

/-- The threshold fields of `DISEASE_RULES["gout"]`. -/
structure GoutRules where
  max_sodium_mg : Int

/-- `DISEASE_RULES["gout"]`: sodium ≤ 700 mg (the purine test is hard-coded
in the evaluator branch). -/
def gout_rules : GoutRules :=
  { max_sodium_mg := 700 }

/-- The threshold fields of `DISEASE_RULES["ibs"]`. -/
structure IbsRules where
  min_fiber_g : Int
  max_fat_g : Int

/-- `DISEASE_RULES["ibs"]`: fiber ≥ 5 g (50 tenths), fat ≤ 10 g (100
tenths). -/
def ibs_rules : IbsRules :=
  { min_fiber_g := 50, max_fat_g := 100 }

/-- The key set of `DISEASE_RULES`, in dict insertion order.  Membership in
this list is exactly the `disease not in self.rules` test of
`validate_food`.  (`DISEASE_RULES["lactose"]` carries no threshold read by
the evaluator, so it contributes only its key here.) -/
def DISEASE_RULES_keys : List String :=
  ["diabetes", "celiac", "hypertension", "kidney", "lactose", "gout", "ibs"]

/-- One entry of a verdict's `violations` list.  Each constructor corresponds
to one f-string message shape of `validate_food` and carries the same data the
message interpolates (offending value and threshold, in the same scaled units
as `Food`). -/
inductive Violation
  | highSugar (value maxValue : Int)
  | highCarbs (value maxValue : Int)
  | lowFiber (value minValue : Int)
  | highCalories (value maxValue : Int)
  | containsGluten
  | highSodium (value maxValue : Int)
  | containsLactose
  | highPurine (level : PurineLevel)
  | highFat (value maxValue : Int)
  | highProtein (value maxValue : Int)
deriving DecidableEq, Repr

/-- A verdict's `reason` string: `"Food not found"`, `"Disease not found"`,
`"Meets dietary requirements"`, or the first violation message
(`violations[0]`). -/
inductive Reason
  | foodNotFound
  | diseaseNotFound
  | meetsRequirements
  | violation (v : Violation)
deriving DecidableEq, Repr

/-- A verdict's `status` string. -/
inductive Status
  | safe
  | caution
  | avoid
  | unknown
deriving DecidableEq, Repr

/-- The dict returned by `validate_food` (lines 339-344 on the main path,
lines 253/256 on the lookup-failure paths).  The failure paths return a dict
*without* a `"violations"` key, hence `violations : Option (List Violation)`
with `none` on those paths. -/
structure Verdict where
  status : Status
  reason : Reason
  score : Int
  violations : Option (List Violation)
deriving DecidableEq, Repr

/-- The diabetes branch of `validate_food` (lines 264-276): the four checks in
source order, each appending its violation and subtracting its penalty.
Returns the accumulated `(violations, score)` starting from `([], 100)`. -/
def checkDiabetes (food : Food) : List Violation × Int :=
  let acc : List Violation × Int := ([], 100)
  let acc :=
    if food.sugar_g > diabetes_rules.max_sugar_g then
      (acc.1 ++ [.highSugar food.sugar_g diabetes_rules.max_sugar_g],
       acc.2 - 15)
    else acc
  let acc :=
    if food.carbs_g > diabetes_rules.max_carbs_g then
      (acc.1 ++ [.highCarbs food.carbs_g diabetes_rules.max_carbs_g],
       acc.2 - 20)
    else acc
  let acc :=
    if food.fiber_g < diabetes_rules.min_fiber_g then
      (acc.1 ++ [.lowFiber food.fiber_g diabetes_rules.min_fiber_g],
       acc.2 - 10)
    else acc
  let acc :=
    if food.calories > diabetes_rules.max_calories then
      (acc.1 ++ [.highCalories food.calories diabetes_rules.max_calories],
       acc.2 - 5)
    else acc
  acc

/-- The celiac branch of `validate_food` (lines 278-287). -/
def checkCeliac (food : Food) : List Violation × Int :=
  let acc : List Violation × Int := ([], 100)
  let acc :=
    if food.gluten then (acc.1 ++ [.containsGluten], acc.2 - 50) else acc
  let acc :=
    if food.sodium_mg > celiac_rules.max_sodium_mg then
      (acc.1 ++ [.highSodium food.sodium_mg celiac_rules.max_sodium_mg],
       acc.2 - 10)
    else acc
  let acc :=
    if food.fiber_g < celiac_rules.min_fiber_g then
      (acc.1 ++ [.lowFiber food.fiber_g celiac_rules.min_fiber_g],
       acc.2 - 5)
    else acc
  acc

/-- The hypertension branch of `validate_food` (lines 289-298). -/
def checkHypertension (food : Food) : List Violation × Int :=
  let acc : List Violation × Int := ([], 100)
  let acc :=
    if food.sodium_mg > hypertension_rules.max_sodium_mg then
      (acc.1 ++ [.highSodium food.sodium_mg hypertension_rules.max_sodium_mg],
       acc.2 - 25)
    else acc
  let acc :=
    if food.calories > hypertension_rules.max_calories then
      (acc.1 ++
         [.highCalories food.calories hypertension_rules.max_calories],
       acc.2 - 10)
    else acc
  let acc :=
    if food.fat_g > hypertension_rules.max_fat_g then
      (acc.1 ++ [.highFat food.fat_g hypertension_rules.max_fat_g],
       acc.2 - 15)
    else acc
  acc

/-- The lactose branch of `validate_food` (lines 300-303). -/
def checkLactose (food : Food) : List Violation × Int :=
  let acc : List Violation × Int := ([], 100)
  let acc :=
    if food.lactose then (acc.1 ++ [.containsLactose], acc.2 - 50) else acc
  acc

/-- The gout branch of `validate_food` (lines 305-311): the purine test is
`food["purine_level"] in ["high", "very_high"]`. -/
def checkGout (food : Food) : List Violation × Int :=
  let acc : List Violation × Int := ([], 100)
  let acc :=
    if food.purine_level = .high ∨ food.purine_level = .very_high then
      (acc.1 ++ [.highPurine food.purine_level], acc.2 - 30)
    else acc
  let acc :=
    if food.sodium_mg > gout_rules.max_sodium_mg then
      (acc.1 ++ [.highSodium food.sodium_mg gout_rules.max_sodium_mg],
       acc.2 - 10)
    else acc
  acc

/-- The kidney branch of `validate_food` (lines 313-319). -/
def checkKidney (food : Food) : List Violation × Int :=
  let acc : List Violation × Int := ([], 100)
  let acc :=
    if food.sodium_mg > kidney_rules.max_sodium_mg then
      (acc.1 ++ [.highSodium food.sodium_mg kidney_rules.max_sodium_mg],
       acc.2 - 25)
    else acc
  let acc :=
    if food.protein_g > kidney_rules.max_protein_g then
      (acc.1 ++ [.highProtein food.protein_g kidney_rules.max_protein_g],
       acc.2 - 20)
    else acc
  acc

/-- The ibs branch of `validate_food` (lines 321-327). -/
def checkIbs (food : Food) : List Violation × Int :=
  let acc : List Violation × Int := ([], 100)
  let acc :=
    if food.fiber_g < ibs_rules.min_fiber_g then
      (acc.1 ++ [.lowFiber food.fiber_g ibs_rules.min_fiber_g], acc.2 - 10)
    else acc
  let acc :=
    if food.fat_g > ibs_rules.max_fat_g then
      (acc.1 ++ [.highFat food.fat_g ibs_rules.max_fat_g], acc.2 - 20)
    else acc
  acc

/-- The `if disease == ... / elif ...` chain of `validate_food`
(lines 264-327), in source order.  The chain has no final `else`; a disease
that is in the rule table but matches no branch would leave
`(violations, score) = ([], 100)` — with this rule table every key has a
branch, so the fall-through is unreachable. -/
def checkRules (disease : String) (food : Food) : List Violation × Int :=
  if disease = "diabetes" then checkDiabetes food
  else if disease = "celiac" then checkCeliac food
  else if disease = "hypertension" then checkHypertension food
  else if disease = "lactose" then checkLactose food
  else if disease = "gout" then checkGout food
  else if disease = "kidney" then checkKidney food
  else if disease = "ibs" then checkIbs food
  else ([], 100)

/-- The status partition of `validate_food` (lines 330-335): `score >= 80 →
safe`, `50 <= score < 80 → caution`, `score < 50 → avoid`.  Applied to the
score *before* the final clamp in the source. -/
def statusOfScore (score : Int) : Status :=
  if score ≥ 80 then .safe else if score ≥ 50 then .caution else .avoid

/-- `FoodValidator.validate_food` (food_validator.py lines 247-344).  The
food lookup is checked first (line 252), then the disease lookup (line 255);
on either failure the returned dict has status `unknown`, score 0 and no
`violations` key.  Otherwise the disease branch accumulates violations and
penalties from 100, status is derived from the unclamped score, `reason` is
the first violation (or the meets-requirements message), and the returned
score is clamped with `max(0, score)`. -/
def validate_food (food_id disease : String) : Verdict :=
  match FOOD_DATABASE.lookup food_id with
  | none =>
      { status := .unknown, reason := .foodNotFound, score := 0,
        violations := none }
  | some food =>
      if disease ∈ DISEASE_RULES_keys then
        let r := checkRules disease food
        let status := statusOfScore r.2
        let reason :=
          match r.1 with
          | [] => Reason.meetsRequirements
          | v :: _ => Reason.violation v
        { status := status, reason := reason, score := max 0 r.2,
          violations := some r.1 }
      else
        { status := .unknown, reason := .diseaseNotFound, score := 0,
          violations := none }

/-- The per-food summary dict built by `get_sorted_foods` (lines 361-367):
id, name, price, and the `reason`/`score` of the validation. -/
structure FoodInfo where
  id : String
  name : String
  price : Int
  reason : Reason
  score : Int
deriving DecidableEq, Repr

/-- One iteration of the catalog loop of `get_sorted_foods` (lines 358-367):
validate the food (`validate_food` re-looks the id up; keys are distinct so it
finds the same record) and build its summary, remembering the status used for
bucketing. -/
def foodInfoEntry (p : String × Food) (disease : String) : Status × FoodInfo :=
  let validation := validate_food p.1 disease
  (validation.status,
   { id := p.1, name := p.2.name, price := p.2.price,
     reason := validation.reason, score := validation.score })

/-- The catalog loop of `get_sorted_foods` for one disease, before bucketing:
one `(status, summary)` pair per catalog entry, in catalog order. -/
def catalogEntries (disease : String) : List (Status × FoodInfo) :=
  FOOD_DATABASE.map (fun p => foodInfoEntry p disease)

/-- Python's `list.sort(key=..., reverse=True)` is a stable descending sort;
`orderedInsertDesc` inserts an element before the first already-placed element
whose key is ≤ its own, so an element earlier in the input stays before
later elements with an equal key. -/
def orderedInsertDesc (f : α → Int) (a : α) : List α → List α
  | [] => [a]
  | b :: l => if f b ≤ f a then a :: b :: l else b :: orderedInsertDesc f a l

/-- Stable descending insertion sort by the key `f`: the model of
`xs.sort(key=lambda x: x["score"], reverse=True)` (lines 377-379). -/
def sortDesc (f : α → Int) : List α → List α
  | [] => []
  | a :: l => orderedInsertDesc f a (sortDesc f l)

/-- The three status buckets `get_sorted_foods` returns per disease
(lines 381-385). -/
structure Buckets where
  safe : List FoodInfo
  caution : List FoodInfo
  avoid : List FoodInfo
deriving DecidableEq, Repr

/-- The `safe_foods` list before sorting.  The loop of `get_sorted_foods`
(lines 358-374) appends each summary to the list selected by its status;
appending in iteration order makes each pre-sort bucket the status-filter of
the catalog-ordered entry list, which is how the three buckets are written
here. -/
def safeUnsorted (disease : String) : List FoodInfo :=
  ((catalogEntries disease).filter (fun e => e.1 = Status.safe)).map Prod.snd

/-- The `caution_foods` list before sorting (`elif` branch, line 371). -/
def cautionUnsorted (disease : String) : List FoodInfo :=
  ((catalogEntries disease).filter
    (fun e => e.1 = Status.caution)).map Prod.snd

/-- The `avoid_foods` list before sorting: the final `else` (line 373) takes
every status other than safe/caution, including `unknown`. -/
def avoidUnsorted (disease : String) : List FoodInfo :=
  ((catalogEntries disease).filter
    (fun e => ¬(e.1 = Status.safe) ∧ ¬(e.1 = Status.caution))).map Prod.snd

/-- The body of `get_sorted_foods` for one disease (lines 354-385): the
three status buckets, each sorted by score descending (Python's stable
`sort`). -/
def bucketsFor (disease : String) : Buckets :=
  { safe := sortDesc FoodInfo.score (safeUnsorted disease),
    caution := sortDesc FoodInfo.score (cautionUnsorted disease),
    avoid := sortDesc FoodInfo.score (avoidUnsorted disease) }

/-- `FoodValidator.get_sorted_foods` (lines 346-387).  The Python result dict
is keyed by disease in iteration order; a duplicate disease in the input
overwrites with the same value, so an association list in input order with
first-match lookup has the same lookup behaviour. -/
def get_sorted_foods (diseases : List String) : List (String × Buckets) :=
  diseases.map (fun d => (d, bucketsFor d))

/-- The per-disease record built by `recommend_foods` (lines 400-407). -/
structure Recommendation where
  safe_foods : List FoodInfo
  count : Nat
  all_safe : Nat
  total_caution : Nat
  total_avoid : Nat
deriving DecidableEq, Repr

/-- `FoodValidator.recommend_foods` (lines 393-409): slice the safe bucket to
`max_items` (`foods["safe"][:max_items]`, hence `max_items : Nat` — the
claims only concern non-negative counts) and report the bucket sizes. -/
def recommend_foods (diseases : List String) (max_items : Nat) :
    List (String × Recommendation) :=
  (get_sorted_foods diseases).map (fun p =>
    let safe := p.2.safe.take max_items
    (p.1,
     { safe_foods := safe, count := safe.length,
       all_safe := p.2.safe.length, total_caution := p.2.caution.length,
       total_avoid := p.2.avoid.length }))

/-!
## The meal-plan endpoint (`generate_meal_plan`, food_menu_api.py lines
376-482)

The endpoint reads three database tables.  The catalog rows live in an
external SQLite/MySQL database (the Nutrition Record Store collaborator), so
the database contents are an explicit input here; the selection, grouping and
slot-building logic is translated from the Python source.  `food_items` and
`nutrition_facts` are joined 1:1 on `food_id` by the query, so they are
modelled as one record carrying exactly the projected columns. -/

/-- A row of `health_conditions` (the two columns the endpoint reads). -/
structure DBCondition where
  condition_id : Nat
  condition_code : String
deriving DecidableEq, Repr

/-- A row of `food_items` joined with its `nutrition_facts` and
`food_categories` rows: the columns projected by the meal-plan query. -/
structure DBFood where
  food_id : Nat
  food_name : String
  category_name : String
  image_path : String
  calories : Int
  protein_g : Int
  carbs_g : Int
deriving DecidableEq, Repr

/-- A row of `food_recommendations` (the columns the endpoint reads). -/
structure DBRecommendation where
  food_id : Nat
  condition_id : Nat
  recommendation_type : String
  safety_score : Int
deriving DecidableEq, Repr

/-- The database state the meal-plan endpoint queries. -/
structure MenuDatabase where
  health_conditions : List DBCondition
  food_items : List DBFood
  food_recommendations : List DBRecommendation
deriving DecidableEq, Repr

/-- The condition-id query (lines 389-398): `SELECT condition_id FROM
health_conditions WHERE condition_code IN (health_conditions)`, in table
order. -/
def selectedConditionIds (db : MenuDatabase)
    (health_conditions : List String) : List Nat :=
  (db.health_conditions.filter
    (fun c => c.condition_code ∈ health_conditions)).map
    (fun c => c.condition_id)

/-- A row of the meal-plan food query (lines 402-413): the projected columns
of the three-way join. -/
structure MealPlanRow where
  food_id : Nat
  food_name : String
  category_name : String
  image_path : String
  safety_score : Int
  calories : Int
  protein_g : Int
  carbs_g : Int
deriving DecidableEq, Repr

/-- The join and `WHERE` clause of the meal-plan query (lines 402-413): one
row per `(food, recommendation)` pair with `fr.condition_id IN
(condition_ids)` — a disjunction over the requested conditions — `AND
fr.recommendation_type IN ('Highly Recommended', 'Recommended') AND
fr.safety_score >= 7`. -/
def mealPlanJoin (db : MenuDatabase) (condition_ids : List Nat) :
    List MealPlanRow :=
  db.food_items.flatMap (fun fi =>
    (db.food_recommendations.filter (fun fr =>
      fr.food_id = fi.food_id ∧ fr.condition_id ∈ condition_ids ∧
      (fr.recommendation_type = "Highly Recommended" ∨
        fr.recommendation_type = "Recommended") ∧
      fr.safety_score ≥ 7)).map (fun fr =>
        { food_id := fi.food_id, food_name := fi.food_name,
          category_name := fi.category_name, image_path := fi.image_path,
          safety_score := fr.safety_score, calories := fi.calories,
          protein_g := fi.protein_g, carbs_g := fi.carbs_g }))

/-- `SELECT DISTINCT`: drop duplicate rows, keeping the first occurrence
(`seen` accumulates the rows already emitted). -/
def distinctRows [DecidableEq α] (seen : List α) : List α → List α
  | [] => []
  | a :: l =>
      if a ∈ seen then distinctRows seen l
      else a :: distinctRows (a :: seen) l

/-- The full `safe_foods` result set of the meal-plan query (line 415):
distinct join rows ordered by `safety_score DESC`.  SQL leaves the relative
order of equal scores unspecified; the model fixes join order broken by a
stable sort — no claim settled here depends on the order of tied rows. -/
def mealPlanSafeFoods (db : MenuDatabase) (condition_ids : List Nat) :
    List MealPlanRow :=
  sortDesc MealPlanRow.safety_score
    (distinctRows [] (mealPlanJoin db condition_ids))

/-- The per-food dict appended to `foods_by_category` (lines 424-433). -/
structure MealFood where
  id : Nat
  name : String
  category : String
  image_path : String
  safety_score : Int
  calories : Int
  protein : Int
  carbs : Int
deriving DecidableEq, Repr

/-- The projection of a query row to the meal-plan food dict
(lines 424-433). -/
def toMealFood (r : MealPlanRow) : MealFood :=
  { id := r.food_id, name := r.food_name, category := r.category_name,
    image_path := r.image_path, safety_score := r.safety_score,
    calories := r.calories, protein := r.protein_g, carbs := r.carbs_g }

/-- The `foods_by_category` grouping (lines 419-433): the dict maps each
category to the rows of that category in `safe_foods` order (appends in
iteration order = filter), so index 0 is the highest-scored food of the
category. -/
def foods_by_category (safe_foods : List MealPlanRow) (category : String) :
    List MealFood :=
  (safe_foods.filter (fun r => r.category_name = category)).map toMealFood

/-- A meal slot (lines 440-444). -/
structure Meal where
  meal_type : String
  foods : List MealFood
  total_calories : Int
deriving DecidableEq, Repr

/-- The role loops of lines 452-473: walk the category list and take element
0 of the first non-empty category group (at most one food per role). -/
def pickRole (safe_foods : List MealPlanRow) :
    List String → List MealFood
  | [] => []
  | c :: cs =>
      match foods_by_category safe_foods c with
      | [] => pickRole safe_foods cs
      | f :: _ => [f]

/-- `protein_categories` (line 447). -/
def protein_categories : List String := ["Protein", "Seafood", "Meat"]

/-- `side_categories` (line 448). -/
def side_categories : List String := ["Vegetarian", "Indian"]

/-- `drink_categories` (line 449). -/
def drink_categories : List String := ["Drink"]

/-- `meal_types` (line 437). -/
def meal_types : List String := ["Breakfast", "Lunch", "Dinner"]

/-- One meal slot (lines 440-475): protein, side and drink picks in that
order (the same picks for every slot — the groups are never consumed, so
repetition across slots is the source's behaviour) with the calorie sum. -/
def mealForSlot (safe_foods : List MealPlanRow) (i : Nat) : Meal :=
  let foods :=
    pickRole safe_foods protein_categories ++
      pickRole safe_foods side_categories ++
      pickRole safe_foods drink_categories
  { meal_type := meal_types.getD i "", foods := foods,
    total_calories := (foods.map (fun f => f.calories)).sum }

/-- The error responses of the meal-plan endpoint.  The missing
`health_conditions` field check (line 381) is outside this model — the
condition list is an explicit argument here. -/
inductive MealPlanError
  | invalidConditions
  | noSafeFoods
deriving DecidableEq, Repr

/-- `generate_meal_plan` (food_menu_api.py lines 376-482): resolve the
condition codes (error `'Invalid health conditions'` when none resolves), run
the safe-food query (error `'No safe foods found...'` when empty), then build
`min(meal_count, len(meal_types))` slots — `meal_count` is a Python int and
may be negative, in which case `range` is empty.  No validation of
`meal_count` is performed anywhere. -/
def generate_meal_plan (db : MenuDatabase) (health_conditions : List String)
    (meal_count : Int) : Except MealPlanError (List Meal) :=
  let condition_ids := selectedConditionIds db health_conditions
  if condition_ids = [] then .error .invalidConditions
  else
    let safe_foods := mealPlanSafeFoods db condition_ids
    if safe_foods = [] then .error .noSafeFoods
    else
      .ok ((List.range (min meal_count (meal_types.length : Int)).toNat).map
        (fun i => mealForSlot safe_foods i))

/-- A food (by id) satisfies the recommendation-type and safety-score cutoff
of the meal-plan query for the single condition `cid`: some recommendation
row ties it to `cid` with type `'Highly Recommended'` or `'Recommended'` and
score ≥ 7.  The per-condition membership the intersection/union question is
about. -/
def qualifiedFor (db : MenuDatabase) (cid : Nat) (food_id : Nat) : Prop :=
  ∃ fr ∈ db.food_recommendations,
    fr.food_id = food_id ∧ fr.condition_id = cid ∧
    (fr.recommendation_type = "Highly Recommended" ∨
      fr.recommendation_type = "Recommended") ∧
    fr.safety_score ≥ 7

instance (db : MenuDatabase) (cid food_id : Nat) :
    Decidable (qualifiedFor db cid food_id) := by
  unfold qualifiedFor
  infer_instance

/-- A two-condition database on which the union/intersection distinction is
visible: one food, highly recommended (score 9) for condition 1 but `'Avoid'`
(score 2) for condition 2. -/
def exampleDB : MenuDatabase :=
  { health_conditions :=
      [{ condition_id := 1, condition_code := "diabetes" },
       { condition_id := 2, condition_code := "celiac" }],
    food_items :=
      [{ food_id := 1, food_name := "Grilled Salmon",
         category_name := "Protein", image_path := "salmon.jpg",
         calories := 350, protein_g := 40, carbs_g := 0 }],
    food_recommendations :=
      [{ food_id := 1, condition_id := 1,
         recommendation_type := "Highly Recommended", safety_score := 9 },
       { food_id := 1, condition_id := 2, recommendation_type := "Avoid",
         safety_score := 2 }] }

/-!
## Generic lemmas: the stable descending sort, lookups, counting
-/

theorem orderedInsertDesc_perm (f : α → Int) (a : α) (l : List α) :
    (orderedInsertDesc f a l).Perm (a :: l) := by
  induction l with
  | nil => exact List.Perm.refl _
  | cons b t ih =>
      by_cases h : f b ≤ f a
      · simp [orderedInsertDesc, h]
      · simp only [orderedInsertDesc, if_neg h]
        exact (ih.cons b).trans (List.Perm.swap a b t)

theorem sortDesc_perm (f : α → Int) (l : List α) : (sortDesc f l).Perm l := by
  induction l with
  | nil => exact List.Perm.refl _
  | cons a t ih =>
      exact (orderedInsertDesc_perm f a (sortDesc f t)).trans (ih.cons a)

theorem mem_sortDesc (f : α → Int) (l : List α) (x : α) :
    x ∈ sortDesc f l ↔ x ∈ l :=
  (sortDesc_perm f l).mem_iff

theorem sorted_orderedInsertDesc (f : α → Int) (a : α) (l : List α)
    (h : l.Sorted (fun x y => f y ≤ f x)) :
    (orderedInsertDesc f a l).Sorted (fun x y => f y ≤ f x) := by
  induction l with
  | nil => simp [orderedInsertDesc]
  | cons b t ih =>
      rw [List.sorted_cons] at h
      by_cases hba : f b ≤ f a
      · simp only [orderedInsertDesc, if_pos hba]
        rw [List.sorted_cons]
        refine ⟨?_, List.sorted_cons.mpr h⟩
        intro x hx
        rcases List.mem_cons.mp hx with rfl | hx
        · exact hba
        · exact le_trans (h.1 x hx) hba
      · simp only [orderedInsertDesc, if_neg hba]
        rw [List.sorted_cons]
        refine ⟨?_, ih h.2⟩
        intro x hx
        rcases List.mem_cons.mp
            ((orderedInsertDesc_perm f a t).mem_iff.mp hx) with rfl | hx
        · exact le_of_lt (lt_of_not_le hba)
        · exact h.1 x hx

theorem sortDesc_sorted (f : α → Int) (l : List α) :
    (sortDesc f l).Sorted (fun x y => f y ≤ f x) := by
  induction l with
  | nil => simp [sortDesc]
  | cons a t ih => exact sorted_orderedInsertDesc f a (sortDesc f t) ih

theorem filter_key_orderedInsertDesc (f : α → Int) (s : Int) (a : α)
    (l : List α) :
    (orderedInsertDesc f a l).filter (fun x => f x = s) =
      if f a = s then a :: l.filter (fun x => f x = s)
      else l.filter (fun x => f x = s) := by
  induction l with
  | nil =>
      by_cases h : f a = s <;> simp [orderedInsertDesc, List.filter, h]
  | cons b t ih =>
      have hu : orderedInsertDesc f a (b :: t) =
          if f b ≤ f a then a :: b :: t
          else b :: orderedInsertDesc f a t := rfl
      by_cases hba : f b ≤ f a
      · rw [hu, if_pos hba]
        by_cases h : f a = s <;> simp [List.filter_cons, h]
      · rw [hu, if_neg hba]
        by_cases h : f a = s
        · have hbs : ¬ (f b = s) := by
            intro hb
            exact hba (le_of_eq (h ▸ hb))
          simp [List.filter_cons, hbs, ih, h]
        · by_cases hbs : f b = s <;>
            simp [List.filter_cons, hbs, ih, h]

theorem sortDesc_stable (f : α → Int) (l : List α) (s : Int) :
    (sortDesc f l).filter (fun x => f x = s) =
      l.filter (fun x => f x = s) := by
  induction l with
  | nil => rfl
  | cons a t ih =>
      rw [sortDesc, filter_key_orderedInsertDesc]
      by_cases h : f a = s <;> simp [List.filter_cons, h, ih]

theorem sortDesc_eq_of_key_const (f : α → Int) (c : Int) :
    ∀ l : List α, (∀ x ∈ l, f x = c) → sortDesc f l = l := by
  intro l
  induction l with
  | nil => intro _; rfl
  | cons a t ih =>
      intro h
      rw [sortDesc, ih (fun x hx => h x (List.mem_cons_of_mem a hx))]
      cases t with
      | nil => rfl
      | cons b t2 =>
          have hba : f b ≤ f a := by
            rw [h b (by simp), h a (by simp)]
          simp [orderedInsertDesc, if_pos hba]

theorem lookup_eq_none_of_not_mem_keys {β : Type} (l : List (String × β))
    (k : String) (h : k ∉ l.map Prod.fst) : l.lookup k = none := by
  induction l with
  | nil => rfl
  | cons p t ih =>
      obtain ⟨a, b⟩ := p
      simp only [List.map, List.mem_cons] at h
      push_neg at h
      have : (k == a) = false := beq_eq_false_iff_ne.mpr h.1
      simp [List.lookup, this, ih h.2]

theorem lookup_isSome_of_mem_keys {β : Type} (l : List (String × β))
    (k : String) (h : k ∈ l.map Prod.fst) : ∃ v, l.lookup k = some v := by
  induction l with
  | nil => simp at h
  | cons p t ih =>
      obtain ⟨a, b⟩ := p
      by_cases hk : k = a
      · exact ⟨b, by simp [List.lookup, hk]⟩
      · have : (k == a) = false := beq_eq_false_iff_ne.mpr hk
        simp only [List.map, List.mem_cons] at h
        rcases h with h | h
        · exact absurd h hk
        · obtain ⟨v, hv⟩ := ih h
          exact ⟨v, by simp [List.lookup, this, hv]⟩

theorem lookup_map_self {β : Type} (g : String → β) (C : List String)
    (d : String) (h : d ∈ C) :
    (C.map (fun c => (c, g c))).lookup d = some (g d) := by
  induction C with
  | nil => simp at h
  | cons c cs ih =>
      by_cases hdc : d = c
      · subst hdc
        simp [List.lookup]
      · have : (d == c) = false := beq_eq_false_iff_ne.mpr hdc
        rcases List.mem_cons.mp h with h | h
        · exact absurd h hdc
        · simp [List.lookup, this, ih h]

/-!
## Score bounds of the rule branches
-/

theorem checkDiabetes_score_bounds (food : Food) :
    50 ≤ (checkDiabetes food).2 ∧ (checkDiabetes food).2 ≤ 100 := by
  simp only [checkDiabetes]
  split_ifs <;> simp

theorem checkCeliac_score_bounds (food : Food) :
    35 ≤ (checkCeliac food).2 ∧ (checkCeliac food).2 ≤ 100 := by
  simp only [checkCeliac]
  split_ifs <;> simp

theorem checkHypertension_score_bounds (food : Food) :
    50 ≤ (checkHypertension food).2 ∧ (checkHypertension food).2 ≤ 100 := by
  simp only [checkHypertension]
  split_ifs <;> simp

theorem checkLactose_score_bounds (food : Food) :
    50 ≤ (checkLactose food).2 ∧ (checkLactose food).2 ≤ 100 := by
  simp only [checkLactose]
  split_ifs <;> simp

theorem checkGout_score_bounds (food : Food) :
    60 ≤ (checkGout food).2 ∧ (checkGout food).2 ≤ 100 := by
  simp only [checkGout]
  split_ifs <;> simp

theorem checkKidney_score_bounds (food : Food) :
    55 ≤ (checkKidney food).2 ∧ (checkKidney food).2 ≤ 100 := by
  simp only [checkKidney]
  split_ifs <;> simp

theorem checkIbs_score_bounds (food : Food) :
    70 ≤ (checkIbs food).2 ∧ (checkIbs food).2 ≤ 100 := by
  simp only [checkIbs]
  split_ifs <;> simp

/-- Whatever the disease, the branch chain leaves the score in `[35, 100]`
(the celiac branch attains the lower end). -/
theorem checkRules_score_bounds (disease : String) (food : Food) :
    35 ≤ (checkRules disease food).2 ∧ (checkRules disease food).2 ≤ 100 := by
  unfold checkRules
  have hd := checkDiabetes_score_bounds food
  have hc := checkCeliac_score_bounds food
  have hh := checkHypertension_score_bounds food
  have hl := checkLactose_score_bounds food
  have hg := checkGout_score_bounds food
  have hk := checkKidney_score_bounds food
  have hi := checkIbs_score_bounds food
  split_ifs <;> omega

/-- Away from the celiac branch the score stays at 50 or above. -/
theorem checkRules_score_ge_50 (disease : String) (food : Food)
    (h : disease ≠ "celiac") : 50 ≤ (checkRules disease food).2 := by
  unfold checkRules
  have hd := checkDiabetes_score_bounds food
  have hh := checkHypertension_score_bounds food
  have hl := checkLactose_score_bounds food
  have hg := checkGout_score_bounds food
  have hk := checkKidney_score_bounds food
  have hi := checkIbs_score_bounds food
  split_ifs <;> omega

/-!
## The status partition
-/

/-- Who clamps first does not matter: the status computed from the raw score
(as the source does, line 330) agrees with the partition applied to the
clamped score that is returned. -/
theorem statusOfScore_max_clamp (s : Int) :
    statusOfScore (max 0 s) = statusOfScore s := by
  unfold statusOfScore
  rcases le_total 0 s with h | h
  · rw [max_eq_right h]
  · rw [max_eq_left h, if_neg (by omega), if_neg (by omega),
      if_neg (by omega), if_neg (by omega)]

theorem statusOfScore_ne_avoid (s : Int) (h : 50 ≤ s) :
    statusOfScore s ≠ Status.avoid := by
  unfold statusOfScore
  split_ifs <;> simp_all

theorem statusOfScore_ne_unknown (s : Int) :
    statusOfScore s ≠ Status.unknown := by
  unfold statusOfScore
  split_ifs <;> simp

/-!
## Path characterizations of `validate_food`
-/

/-- The food-not-found path (line 252). -/
theorem validate_food_not_found (food_id disease : String)
    (h : food_id ∉ FOOD_DATABASE.map Prod.fst) :
    validate_food food_id disease =
      { status := .unknown, reason := .foodNotFound, score := 0,
        violations := none } := by
  unfold validate_food
  rw [lookup_eq_none_of_not_mem_keys FOOD_DATABASE food_id h]

/-- The disease-not-found path (line 255): reached for any resolvable food
and any disease outside the rule table. -/
theorem validate_disease_not_found (food_id disease : String) (food : Food)
    (hl : FOOD_DATABASE.lookup food_id = some food)
    (h : disease ∉ DISEASE_RULES_keys) :
    validate_food food_id disease =
      { status := .unknown, reason := .diseaseNotFound, score := 0,
        violations := none } := by
  unfold validate_food
  rw [hl]
  simp [if_neg h]

/-- The main path (lines 258-344): both lookups succeed. -/
theorem validate_food_known (food_id disease : String) (food : Food)
    (hl : FOOD_DATABASE.lookup food_id = some food)
    (h : disease ∈ DISEASE_RULES_keys) :
    validate_food food_id disease =
      { status := statusOfScore (checkRules disease food).2,
        reason :=
          match (checkRules disease food).1 with
          | [] => Reason.meetsRequirements
          | v :: _ => Reason.violation v,
        score := max 0 (checkRules disease food).2,
        violations := some (checkRules disease food).1 } := by
  unfold validate_food
  rw [hl]
  simp [if_pos h]

/-- The returned score is in `[0, 100]` on every path. -/
theorem validate_food_score_bounds (food_id disease : String) :
    0 ≤ (validate_food food_id disease).score ∧
      (validate_food food_id disease).score ≤ 100 := by
  unfold validate_food
  cases hl : FOOD_DATABASE.lookup food_id with
  | none => simp
  | some food =>
      by_cases h : disease ∈ DISEASE_RULES_keys
      · have hb := checkRules_score_bounds disease food
        simp only [if_pos h]
        constructor
        · exact le_max_left 0 _
        · exact max_le (by omega) hb.2
      · simp [if_neg h]

/-!
## Bucketing lemmas
-/

/-- The status tests of the bucketing `if/elif/else` are mutually exclusive
and exhaustive, so the three filters of one entry list split its `countP`
exactly. -/
theorem countP_three_buckets (l : List (Status × FoodInfo))
    (q : FoodInfo → Bool) :
    (((l.filter (fun e => e.1 = Status.safe)).map Prod.snd).countP q +
        ((l.filter (fun e => e.1 = Status.caution)).map Prod.snd).countP q) +
      ((l.filter
        (fun e => ¬(e.1 = Status.safe) ∧ ¬(e.1 = Status.caution))).map
          Prod.snd).countP q =
      (l.map Prod.snd).countP q := by
  induction l with
  | nil => rfl
  | cons e t ih =>
      obtain ⟨st, x⟩ := e
      cases st <;>
        simp [List.filter_cons, List.countP_cons, List.countP_map]
          at ih ⊢ <;>
        omega

/-- The summary built for a catalog entry carries the entry's key as its
`id`. -/
theorem foodInfoEntry_id (p : String × Food) (disease : String) :
    (foodInfoEntry p disease).2.id = p.1 := rfl

/-- Counting catalog entries by id reduces to counting catalog keys. -/
theorem countP_catalogEntries_id (disease : String) (fid : String) :
    ((catalogEntries disease).map Prod.snd).countP (fun x => x.id = fid) =
      FOOD_DATABASE.countP (fun p => p.1 = fid) := by
  unfold catalogEntries
  rw [List.map_map, List.countP_map]
  rfl

/-- The 13 catalog keys are distinct: each key occurs exactly once. -/
theorem countP_FOOD_DATABASE_keys (fid : String)
    (h : fid ∈ FOOD_DATABASE.map Prod.fst) :
    FOOD_DATABASE.countP (fun p => p.1 = fid) = 1 := by
  simp only [FOOD_DATABASE, List.map_cons, List.map_nil,
    List.mem_cons, List.not_mem_nil, or_false] at h
  rcases h with rfl | rfl | rfl | rfl | rfl | rfl | rfl | rfl | rfl | rfl |
    rfl | rfl | rfl <;> decide

/-- For a disease outside the rule table, every catalog entry validates to
the disease-not-found verdict, so the whole entry list is `unknown` with
score 0 and the disease-not-found reason. -/
theorem catalogEntries_unknown_disease (disease : String)
    (h : disease ∉ DISEASE_RULES_keys) :
    catalogEntries disease =
      FOOD_DATABASE.map (fun p =>
        (Status.unknown,
         { id := p.1, name := p.2.name, price := p.2.price,
           reason := Reason.diseaseNotFound, score := 0 })) := by
  unfold catalogEntries
  apply List.map_congr_left
  intro p hp
  have hkey : p.1 ∈ FOOD_DATABASE.map Prod.fst :=
    List.mem_map_of_mem Prod.fst hp
  obtain ⟨food, hfood⟩ := lookup_isSome_of_mem_keys FOOD_DATABASE p.1 hkey
  unfold foodInfoEntry
  rw [validate_disease_not_found p.1 disease food hfood h]

/-!
## Meal-plan lemmas
-/

theorem mem_of_mem_distinctRows [DecidableEq α] (seen : List α)
    (l : List α) (x : α) (h : x ∈ distinctRows seen l) : x ∈ l := by
  induction l generalizing seen with
  | nil => simp [distinctRows] at h
  | cons a t ih =>
      unfold distinctRows at h
      by_cases ha : a ∈ seen
      · rw [if_pos ha] at h
        exact List.mem_cons_of_mem a (ih _ h)
      · rw [if_neg ha] at h
        rcases List.mem_cons.mp h with rfl | h
        · exact List.mem_cons_self x t
        · exact List.mem_cons_of_mem a (ih _ h)

/-- Every row of the meal-plan join satisfies the `WHERE` clause for at
least one requested condition id. -/
theorem mem_mealPlanJoin (db : MenuDatabase) (ids : List Nat)
    (r : MealPlanRow) (h : r ∈ mealPlanJoin db ids) :
    ∃ fr ∈ db.food_recommendations,
      fr.food_id = r.food_id ∧ fr.condition_id ∈ ids ∧
      (fr.recommendation_type = "Highly Recommended" ∨
        fr.recommendation_type = "Recommended") ∧
      fr.safety_score ≥ 7 := by
  unfold mealPlanJoin at h
  rw [List.mem_flatMap] at h
  obtain ⟨fi, hfi, hr⟩ := h
  rw [List.mem_map] at hr
  obtain ⟨fr, hfr, hrow⟩ := hr
  rw [List.mem_filter] at hfr
  obtain ⟨hmem, hcond⟩ := hfr
  rw [decide_eq_true_eq] at hcond
  obtain ⟨hid, hcid, htype, hscore⟩ := hcond
  subst hrow
  exact ⟨fr, hmem, by simp [hid], hcid, htype, hscore⟩

/-- Every row of the `safe_foods` result set satisfies the `WHERE` clause
for at least one requested condition id. -/
theorem mem_mealPlanSafeFoods (db : MenuDatabase) (ids : List Nat)
    (r : MealPlanRow) (h : r ∈ mealPlanSafeFoods db ids) :
    ∃ fr ∈ db.food_recommendations,
      fr.food_id = r.food_id ∧ fr.condition_id ∈ ids ∧
      (fr.recommendation_type = "Highly Recommended" ∨
        fr.recommendation_type = "Recommended") ∧
      fr.safety_score ≥ 7 := by
  unfold mealPlanSafeFoods at h
  exact mem_mealPlanJoin db ids r
    (mem_of_mem_distinctRows [] _ r
      ((mem_sortDesc _ _ r).mp h))

/-- A food picked by a role loop is the projection of some row of the
result set. -/
theorem mem_pickRole (rows : List MealPlanRow) (cats : List String)
    (f : MealFood) (h : f ∈ pickRole rows cats) :
    ∃ r ∈ rows, f = toMealFood r := by
  induction cats with
  | nil => simp [pickRole] at h
  | cons c cs ih =>
      unfold pickRole at h
      cases hg : foods_by_category rows c with
      | nil =>
          rw [hg] at h
          exact ih h
      | cons g gs =>
          rw [hg] at h
          have hf : f = g := List.mem_singleton.mp h
          subst hf
          have hgmem : f ∈ foods_by_category rows c := by
            rw [hg]
            exact List.mem_cons_self f gs
          unfold foods_by_category at hgmem
          rw [List.mem_map] at hgmem
          obtain ⟨r, hr, hfr⟩ := hgmem
          exact ⟨r, (List.mem_filter.mp hr).1, hfr.symm⟩

/-- Inversion of the success path of `generate_meal_plan`: the plan is the
slot list built from the safe-food result set of the resolved condition
ids. -/
theorem generate_meal_plan_ok_inv (db : MenuDatabase)
    (health_conditions : List String) (meal_count : Int)
    (plan : List Meal)
    (h : generate_meal_plan db health_conditions meal_count =
      Except.ok plan) :
    plan =
      (List.range (min meal_count (meal_types.length : Int)).toNat).map
        (fun i =>
          mealForSlot
            (mealPlanSafeFoods db
              (selectedConditionIds db health_conditions)) i) := by
  unfold generate_meal_plan at h
  by_cases h1 : selectedConditionIds db health_conditions = []
  · rw [if_pos h1] at h
    exact absurd h (by simp)
  · rw [if_neg h1] at h
    by_cases h2 :
        mealPlanSafeFoods db (selectedConditionIds db health_conditions) = []
    · rw [if_pos h2] at h
      exact absurd h (by simp)
    · rw [if_neg h2] at h
      injection h with h
      exact h.symm

/-!
## Claim theorems
-/

/-- **C1 (counterexample).**  The claim quantifies over *every* food and
condition identifier, but on the unknown-food path the returned status is
`unknown` while the partition applied to the returned score 0 is `avoid`:
at `("unicorn_steak", "diabetes")` the status is not the partition of the
returned score. -/
theorem validate_food_unknown_breaks_partition :
    (validate_food "unicorn_steak" "diabetes").status ≠
      statusOfScore (validate_food "unicorn_steak" "diabetes").score := by
  decide

/-- **C1 (amended).**  For every food identifier and condition identifier
the returned score is in `[0, 100]`; and whenever both identifiers resolve
(the food is a catalog key and the condition a rule-table key) the status is
the partition (`statusOfScore`: ≥ 80 safe, ≥ 50 caution, else avoid) of the
clamped score that is returned — the status computed before clamping agrees
with the partition of the clamped score.  (On lookup failure the status is
`unknown` with score 0 instead.) -/
theorem validate_food_score_range_and_partition (food_id disease : String) :
    (0 ≤ (validate_food food_id disease).score ∧
      (validate_food food_id disease).score ≤ 100) ∧
    (food_id ∈ FOOD_DATABASE.map Prod.fst →
      disease ∈ DISEASE_RULES_keys →
        (validate_food food_id disease).status =
          statusOfScore (validate_food food_id disease).score) := by
  refine ⟨validate_food_score_bounds food_id disease, ?_⟩
  intro hf hd
  obtain ⟨food, hfood⟩ := lookup_isSome_of_mem_keys FOOD_DATABASE food_id hf
  rw [validate_food_known food_id disease food hfood hd]
  exact (statusOfScore_max_clamp (checkRules disease food).2).symm

/-- Witness for C1 (amended) at the resolvable pair `("pizza", "celiac")`. -/
theorem validate_food_score_range_and_partition_witness :
    ("pizza" ∈ FOOD_DATABASE.map Prod.fst) ∧
    ("celiac" ∈ DISEASE_RULES_keys) ∧
    (0 ≤ (validate_food "pizza" "celiac").score ∧
      (validate_food "pizza" "celiac").score ≤ 100) ∧
    (validate_food "pizza" "celiac").status =
      statusOfScore (validate_food "pizza" "celiac").score :=
  ⟨by decide, by decide,
    (validate_food_score_range_and_partition "pizza" "celiac").1,
    (validate_food_score_range_and_partition "pizza" "celiac").2
      (by decide) (by decide)⟩

/-- **C2.**  An unresolvable food identifier (checked first) yields the
`Food not found` verdict with status `unknown` and score 0, independently of
the condition; a resolvable food with an unresolvable condition yields
`Disease not found`, likewise `unknown`/0; no exception is raised (the
embedding is a total function, as is the source path); and the claim's
concrete scenario `("unicorn_steak", "diabetes")` yields the unknown/0
verdict. -/
theorem validate_food_unknown_lookup_verdict (food_id disease : String) :
    (food_id ∉ FOOD_DATABASE.map Prod.fst →
      validate_food food_id disease =
        { status := .unknown, reason := .foodNotFound, score := 0,
          violations := none }) ∧
    (food_id ∈ FOOD_DATABASE.map Prod.fst →
      disease ∉ DISEASE_RULES_keys →
        validate_food food_id disease =
          { status := .unknown, reason := .diseaseNotFound, score := 0,
            violations := none }) ∧
    validate_food "unicorn_steak" "diabetes" =
      { status := .unknown, reason := .foodNotFound, score := 0,
        violations := none } := by
  refine ⟨fun h => validate_food_not_found food_id disease h, ?_, by decide⟩
  intro hf hd
  obtain ⟨food, hfood⟩ := lookup_isSome_of_mem_keys FOOD_DATABASE food_id hf
  exact validate_disease_not_found food_id disease food hfood hd

/-- Witness for C2: `"unicorn_steak"` is not a catalog key and
`"pancreatitis"` is not a rule-table key. -/
theorem validate_food_unknown_lookup_verdict_witness :
    ("unicorn_steak" ∉ FOOD_DATABASE.map Prod.fst) ∧
    validate_food "unicorn_steak" "diabetes" =
      { status := .unknown, reason := .foodNotFound, score := 0,
        violations := none } ∧
    ("pizza" ∈ FOOD_DATABASE.map Prod.fst) ∧
    validate_food "pizza" "pancreatitis" =
      { status := .unknown, reason := .diseaseNotFound, score := 0,
        violations := none } :=
  ⟨by decide,
   (validate_food_unknown_lookup_verdict "unicorn_steak" "diabetes").1
     (by decide),
   by decide,
   (validate_food_unknown_lookup_verdict "pizza" "pancreatitis").2.1
     (by decide) (by decide)⟩

/-- **C8.**  Pizza (gluten, 920 mg sodium, fiber 5 g ≥ min 3 g) against
celiac: the violations are exactly the gluten violation followed by the
sodium-over-max violation (920 over 800), there is no fiber violation, the
score is 100 − 50 − 10 = 40, and the status is avoid. -/
theorem pizza_celiac_verdict :
    (validate_food "pizza" "celiac").violations =
      some [Violation.containsGluten, Violation.highSodium 920 800] ∧
    Violation.containsGluten ∈
      ((validate_food "pizza" "celiac").violations.getD []) ∧
    Violation.highSodium 920 800 ∈
      ((validate_food "pizza" "celiac").violations.getD []) ∧
    (((validate_food "pizza" "celiac").violations.getD []).all
      (fun v =>
        match v with
        | Violation.lowFiber _ _ => false
        | _ => true)) = true ∧
    (validate_food "pizza" "celiac").score = 40 ∧
    (validate_food "pizza" "celiac").status = Status.avoid := by
  decide

/-- **C9.**  No catalog food validates to `avoid` against diabetes,
hypertension, gout, kidney or ibs — each of those branches deducts at most
50 in total, so the score stays at or above 50; and an `avoid` verdict can
only arise from the celiac or lactose condition. -/
theorem avoid_only_from_celiac_or_lactose :
    (∀ food_id ∈ FOOD_DATABASE.map Prod.fst,
      ∀ disease ∈ ["diabetes", "hypertension", "gout", "kidney", "ibs"],
        (validate_food food_id disease).status ≠ Status.avoid) ∧
    (∀ food_id disease : String,
      (validate_food food_id disease).status = Status.avoid →
        disease = "celiac" ∨ disease = "lactose") := by
  constructor
  · intro fid hfid d hd
    obtain ⟨food, hfood⟩ :=
      lookup_isSome_of_mem_keys FOOD_DATABASE fid hfid
    simp only [List.mem_cons, List.not_mem_nil, or_false] at hd
    rcases hd with rfl | rfl | rfl | rfl | rfl <;>
      (rw [validate_food_known fid _ food hfood (by decide)];
       exact statusOfScore_ne_avoid _
         (checkRules_score_ge_50 _ food (by decide)))
  · intro fid d h
    by_cases hf : fid ∈ FOOD_DATABASE.map Prod.fst
    · obtain ⟨food, hfood⟩ :=
        lookup_isSome_of_mem_keys FOOD_DATABASE fid hf
      by_cases hd : d ∈ DISEASE_RULES_keys
      · by_contra hcl
        push_neg at hcl
        rw [validate_food_known fid d food hfood hd] at h
        exact statusOfScore_ne_avoid _
          (checkRules_score_ge_50 d food hcl.1) h
      · rw [validate_disease_not_found fid d food hfood hd] at h
        exact absurd h (by decide)
    · rw [validate_food_not_found fid d hf] at h
      exact absurd h (by decide)

/-- Witness for C9: steak against gout (a very-high-purine food against one
of the five listed conditions) is not `avoid`, and pizza against celiac is
`avoid` with celiac among the two permitted sources. -/
theorem avoid_only_from_celiac_or_lactose_witness :
    ("steak" ∈ FOOD_DATABASE.map Prod.fst) ∧
    ("gout" ∈ ["diabetes", "hypertension", "gout", "kidney", "ibs"]) ∧
    (validate_food "steak" "gout").status ≠ Status.avoid ∧
    ((validate_food "pizza" "celiac").status = Status.avoid →
      "celiac" = "celiac" ∨ "celiac" = "lactose") :=
  ⟨by decide, by decide,
   avoid_only_from_celiac_or_lactose.1 "steak" (by decide) "gout"
     (by decide),
   avoid_only_from_celiac_or_lactose.2 "pizza" "celiac"⟩

/-- **C10.**  The verdict of an unresolvable pair has no `violations` key
(modelled as `violations = none`; the returned dict then has exactly the
keys status/reason/score), while every resolvable pair's verdict carries a
`violations` list, possibly empty. -/
theorem validate_food_violations_key_presence (food_id disease : String) :
    ((food_id ∉ FOOD_DATABASE.map Prod.fst ∨
        disease ∉ DISEASE_RULES_keys) →
      (validate_food food_id disease).violations = none) ∧
    (food_id ∈ FOOD_DATABASE.map Prod.fst →
      disease ∈ DISEASE_RULES_keys →
        ∃ l, (validate_food food_id disease).violations = some l) := by
  constructor
  · intro h
    rcases h with h | h
    · rw [validate_food_not_found food_id disease h]
    · by_cases hf : food_id ∈ FOOD_DATABASE.map Prod.fst
      · obtain ⟨food, hfood⟩ :=
          lookup_isSome_of_mem_keys FOOD_DATABASE food_id hf
        rw [validate_disease_not_found food_id disease food hfood h]
      · rw [validate_food_not_found food_id disease hf]
  · intro hf hd
    obtain ⟨food, hfood⟩ :=
      lookup_isSome_of_mem_keys FOOD_DATABASE food_id hf
    rw [validate_food_known food_id disease food hfood hd]
    exact ⟨(checkRules disease food).1, rfl⟩

/-- Witness for C10 at an unresolvable and a resolvable pair. -/
theorem validate_food_violations_key_presence_witness :
    (validate_food "unicorn_steak" "diabetes").violations = none ∧
    ∃ l, (validate_food "pizza" "celiac").violations = some l :=
  ⟨(validate_food_violations_key_presence "unicorn_steak" "diabetes").1
     (Or.inl (by decide)),
   (validate_food_violations_key_presence "pizza" "celiac").2
     (by decide) (by decide)⟩

/-- **C3 (counterexample).**  For the unknown condition `"pancreatitis"`,
`get_sorted_foods` does *not* produce an empty result set: every catalog food
validates to status `unknown`, and the bucketing `else` branch puts all 13
of them into the `avoid` bucket. -/
theorem get_sorted_foods_unknown_condition_not_empty :
    ("pancreatitis" ∉ DISEASE_RULES_keys) ∧
    (get_sorted_foods ["pancreatitis"]).lookup "pancreatitis" =
      some (bucketsFor "pancreatitis") ∧
    (bucketsFor "pancreatitis").avoid.length = 13 ∧
    ¬((bucketsFor "pancreatitis").avoid = []) := by
  decide

/-- **C3 (amended).**  For a requested condition that is not in the rule
table, the safe and caution buckets are empty, but the avoid bucket holds
the entire catalog in catalog order — each entry with the
disease-not-found reason and score 0 (status `unknown` is bucketed into
`avoid` by the `else` branch). -/
theorem get_sorted_foods_unknown_condition_buckets (C : List String)
    (d : String) (hC : d ∈ C) (hd : d ∉ DISEASE_RULES_keys) :
    (get_sorted_foods C).lookup d = some (bucketsFor d) ∧
    (bucketsFor d).safe = [] ∧
    (bucketsFor d).caution = [] ∧
    (bucketsFor d).avoid =
      FOOD_DATABASE.map (fun p =>
        { id := p.1, name := p.2.name, price := p.2.price,
          reason := Reason.diseaseNotFound, score := 0 }) := by
  have hent := catalogEntries_unknown_disease d hd
  refine ⟨lookup_map_self bucketsFor C d hC, ?_, ?_, ?_⟩
  · show sortDesc FoodInfo.score (safeUnsorted d) = []
    unfold safeUnsorted
    rw [hent]
    simp [List.filter_map, sortDesc]
  · show sortDesc FoodInfo.score (cautionUnsorted d) = []
    unfold cautionUnsorted
    rw [hent]
    simp [List.filter_map, sortDesc]
  · show sortDesc FoodInfo.score (avoidUnsorted d) =
      FOOD_DATABASE.map (fun p =>
        { id := p.1, name := p.2.name, price := p.2.price,
          reason := Reason.diseaseNotFound, score := 0 })
    unfold avoidUnsorted
    rw [hent]
    rw [List.filter_eq_self.mpr (by
      intro e he
      rw [List.mem_map] at he
      obtain ⟨p, hp, rfl⟩ := he
      simp)]
    rw [List.map_map]
    apply sortDesc_eq_of_key_const FoodInfo.score 0
    intro x hx
    rw [List.mem_map] at hx
    obtain ⟨p, hp, rfl⟩ := hx
    rfl

/-- Witness for C3 (amended) at `C = ["pancreatitis"]`. -/
theorem get_sorted_foods_unknown_condition_buckets_witness :
    (get_sorted_foods ["pancreatitis"]).lookup "pancreatitis" =
      some (bucketsFor "pancreatitis") ∧
    (bucketsFor "pancreatitis").safe = [] ∧
    (bucketsFor "pancreatitis").caution = [] ∧
    (bucketsFor "pancreatitis").avoid =
      FOOD_DATABASE.map (fun p =>
        { id := p.1, name := p.2.name, price := p.2.price,
          reason := Reason.diseaseNotFound, score := 0 }) :=
  get_sorted_foods_unknown_condition_buckets ["pancreatitis"] "pancreatitis"
    (by decide) (by decide)

/-- **C5.**  For every requested condition list and every condition in it:
the result maps the condition to its three buckets; each catalog food lands
in exactly one bucket (counting occurrences of its id across the three
buckets gives exactly 1 — disjointness and cover at once); each bucket is
sorted by score descending; and ties are broken stably by catalog insertion
order — restricting a bucket to any fixed score gives exactly the
catalog-ordered pre-sort list restricted to that score. -/
theorem get_sorted_foods_partition_sorted_stable (C : List String)
    (d : String) (hC : d ∈ C) :
    (get_sorted_foods C).lookup d = some (bucketsFor d) ∧
    (∀ fid ∈ FOOD_DATABASE.map Prod.fst,
      ((bucketsFor d).safe.countP (fun x => x.id = fid) +
          (bucketsFor d).caution.countP (fun x => x.id = fid)) +
        (bucketsFor d).avoid.countP (fun x => x.id = fid) = 1) ∧
    ((bucketsFor d).safe.Sorted (fun a b => b.score ≤ a.score) ∧
      (bucketsFor d).caution.Sorted (fun a b => b.score ≤ a.score) ∧
      (bucketsFor d).avoid.Sorted (fun a b => b.score ≤ a.score)) ∧
    (∀ s : Int,
      (bucketsFor d).safe.filter (fun x => x.score = s) =
          (safeUnsorted d).filter (fun x => x.score = s) ∧
        (bucketsFor d).caution.filter (fun x => x.score = s) =
          (cautionUnsorted d).filter (fun x => x.score = s) ∧
        (bucketsFor d).avoid.filter (fun x => x.score = s) =
          (avoidUnsorted d).filter (fun x => x.score = s)) := by
  refine ⟨lookup_map_self bucketsFor C d hC, ?_, ?_, ?_⟩
  · intro fid hfid
    show (List.countP _ (sortDesc FoodInfo.score (safeUnsorted d)) +
        List.countP _ (sortDesc FoodInfo.score (cautionUnsorted d))) +
      List.countP _ (sortDesc FoodInfo.score (avoidUnsorted d)) = 1
    rw [List.Perm.countP_eq _ (sortDesc_perm FoodInfo.score _),
      List.Perm.countP_eq _ (sortDesc_perm FoodInfo.score _),
      List.Perm.countP_eq _ (sortDesc_perm FoodInfo.score _)]
    unfold safeUnsorted cautionUnsorted avoidUnsorted
    rw [countP_three_buckets]
    rw [countP_catalogEntries_id]
    exact countP_FOOD_DATABASE_keys fid hfid
  · exact ⟨sortDesc_sorted FoodInfo.score _,
      sortDesc_sorted FoodInfo.score _, sortDesc_sorted FoodInfo.score _⟩
  · intro s
    exact ⟨sortDesc_stable FoodInfo.score _ s,
      sortDesc_stable FoodInfo.score _ s,
      sortDesc_stable FoodInfo.score _ s⟩

/-- Witness for C5 at `C = ["diabetes"]`, `d = "diabetes"`. -/
theorem get_sorted_foods_partition_sorted_stable_witness :
    (get_sorted_foods ["diabetes"]).lookup "diabetes" =
      some (bucketsFor "diabetes") ∧
    (∀ fid ∈ FOOD_DATABASE.map Prod.fst,
      ((bucketsFor "diabetes").safe.countP (fun x => x.id = fid) +
          (bucketsFor "diabetes").caution.countP (fun x => x.id = fid)) +
        (bucketsFor "diabetes").avoid.countP (fun x => x.id = fid) = 1) ∧
    ((bucketsFor "diabetes").safe.Sorted (fun a b => b.score ≤ a.score) ∧
      (bucketsFor "diabetes").caution.Sorted
        (fun a b => b.score ≤ a.score) ∧
      (bucketsFor "diabetes").avoid.Sorted
        (fun a b => b.score ≤ a.score)) ∧
    (∀ s : Int,
      (bucketsFor "diabetes").safe.filter (fun x => x.score = s) =
          (safeUnsorted "diabetes").filter (fun x => x.score = s) ∧
        (bucketsFor "diabetes").caution.filter (fun x => x.score = s) =
          (cautionUnsorted "diabetes").filter (fun x => x.score = s) ∧
        (bucketsFor "diabetes").avoid.filter (fun x => x.score = s) =
          (avoidUnsorted "diabetes").filter (fun x => x.score = s)) :=
  get_sorted_foods_partition_sorted_stable ["diabetes"] "diabetes"
    (by decide)

/-- **C6.**  `recommend_foods([c], max_items := k)` returns exactly one
entry, keyed by `c`, whose `safe_foods` is the `k`-prefix of the safe bucket
of `get_sorted_foods` — the slice never reorders — and whose length is
`min(k, size of the safe bucket)`. -/
theorem recommend_foods_truncates_safe_bucket (c : String) (k : Nat) :
    ∃ r, recommend_foods [c] k = [(c, r)] ∧
      r.safe_foods = (bucketsFor c).safe.take k ∧
      r.safe_foods.length = min k (bucketsFor c).safe.length := by
  refine ⟨_, rfl, rfl, ?_⟩
  exact List.length_take k (bucketsFor c).safe

/-- **C4 (counterexample).**  On `exampleDB` with the two valid conditions
`["diabetes", "celiac"]` (both resolve, ids 1 and 2), the generated plan
puts food 1 into every slot, yet food 1 does not meet the
recommendation-type/score cutoff for condition 2 (its only row for
condition 2 is `'Avoid'` with score 2): the selection is a union over the
requested conditions, not an intersection. -/
theorem generate_meal_plan_union_counterexample :
    (selectedConditionIds exampleDB ["diabetes", "celiac"]).length = 2 ∧
    2 ∈ selectedConditionIds exampleDB ["diabetes", "celiac"] ∧
    (generate_meal_plan exampleDB ["diabetes", "celiac"] 3).toOption.map
        (fun plan => plan.map (fun m => m.foods.map (fun f => f.id))) =
      some [[1], [1], [1]] ∧
    ¬ qualifiedFor exampleDB 2 1 := by
  refine ⟨by decide, by decide, rfl, by decide⟩

/-- **C4 (amended).**  Every food selected into any slot of a successful
meal plan meets the recommendation-type and safety-score cutoff for **at
least one** requested condition (the `condition_id IN (...)` clause is a
disjunction over the requested conditions). -/
theorem generate_meal_plan_foods_qualified_some_condition
    (db : MenuDatabase) (health_conditions : List String)
    (meal_count : Int) (plan : List Meal)
    (h : generate_meal_plan db health_conditions meal_count =
      Except.ok plan) :
    ∀ m ∈ plan, ∀ f ∈ m.foods,
      ∃ cid ∈ selectedConditionIds db health_conditions,
        qualifiedFor db cid f.id := by
  intro m hm f hf
  have hplan :=
    generate_meal_plan_ok_inv db health_conditions meal_count plan h
  subst hplan
  rw [List.mem_map] at hm
  obtain ⟨i, hi, rfl⟩ := hm
  simp only [mealForSlot, List.mem_append] at hf
  have hrow : ∃ r ∈ mealPlanSafeFoods db
      (selectedConditionIds db health_conditions), f = toMealFood r := by
    rcases hf with (hf | hf) | hf
    · exact mem_pickRole _ _ f hf
    · exact mem_pickRole _ _ f hf
    · exact mem_pickRole _ _ f hf
  obtain ⟨r, hr, rfl⟩ := hrow
  obtain ⟨fr, hfr, hid, hcid, htype, hscore⟩ :=
    mem_mealPlanSafeFoods db _ r hr
  exact ⟨fr.condition_id, hcid, fr, hfr, hid, rfl, htype, hscore⟩

/-- Witness for C4 (amended): in the concrete plan of `exampleDB` for
`["diabetes", "celiac"]`, the food of the first slot (food id 1) qualifies
for some resolved condition id. -/
theorem generate_meal_plan_foods_qualified_some_condition_witness :
    ∃ cid ∈ selectedConditionIds exampleDB ["diabetes", "celiac"],
      qualifiedFor exampleDB cid 1 :=
  generate_meal_plan_foods_qualified_some_condition exampleDB
    ["diabetes", "celiac"] 3 _ rfl
    (mealForSlot
      (mealPlanSafeFoods exampleDB
        (selectedConditionIds exampleDB ["diabetes", "celiac"])) 0)
    (by decide)
    (toMealFood
      { food_id := 1, food_name := "Grilled Salmon",
        category_name := "Protein", image_path := "salmon.jpg",
        safety_score := 9, calories := 350, protein_g := 40, carbs_g := 0 })
    (by decide)

/-- **C7 (counterexample).**  A meal-plan request with a non-positive meal
count does not fail: on `exampleDB` (valid condition, non-empty result set)
both a zero and a negative count return a successful, empty plan — no
`InvalidInput` error is produced anywhere. -/
theorem generate_meal_plan_nonpositive_count_succeeds :
    generate_meal_plan exampleDB ["diabetes"] 0 = Except.ok [] ∧
    generate_meal_plan exampleDB ["diabetes"] (-5) = Except.ok [] :=
  ⟨rfl, rfl⟩

/-- **C7 (amended).**  Whenever the conditions resolve and the safe-food
query is non-empty, a non-positive `meal_count` yields a *successful*
response with an empty slot list — `range(min(meal_count, 3))` is empty and
no validation of `meal_count` exists. -/
theorem generate_meal_plan_nonpositive_count_empty_plan
    (db : MenuDatabase) (health_conditions : List String)
    (meal_count : Int) (hmc : meal_count ≤ 0)
    (h1 : selectedConditionIds db health_conditions ≠ [])
    (h2 : mealPlanSafeFoods db
      (selectedConditionIds db health_conditions) ≠ []) :
    generate_meal_plan db health_conditions meal_count = Except.ok [] := by
  have hz : (min meal_count (meal_types.length : Int)).toNat = 0 := by
    have hle : min meal_count (meal_types.length : Int) ≤ 0 :=
      le_trans (min_le_left _ _) hmc
    omega
  simp only [generate_meal_plan, if_neg h1, if_neg h2, hz]
  rfl

/-- Witness for C7 (amended) on `exampleDB` with meal count −5. -/
theorem generate_meal_plan_nonpositive_count_empty_plan_witness :
    ((-5 : Int) ≤ 0) ∧
    (selectedConditionIds exampleDB ["diabetes"] ≠ []) ∧
    (mealPlanSafeFoods exampleDB
      (selectedConditionIds exampleDB ["diabetes"]) ≠ []) ∧
    generate_meal_plan exampleDB ["diabetes"] (-5) = Except.ok [] :=
  ⟨by decide, by decide, by decide,
    generate_meal_plan_nonpositive_count_empty_plan exampleDB ["diabetes"]
      (-5) (by decide) (by decide) (by decide)⟩
